import Mathlib

set_option maxRecDepth 2000

/-!
Verification of the client-side pipeline of `src/app.py` (TorchServe vision
dashboard).  The pipeline under study is: image validation
(`validate_image`), image normalization (`preprocess_image`), the inference
HTTP client (`get_predictions`), the result ranking and formatting code that
displays the returned label-to-confidence mapping, and the session-state
update performed after each analysis attempt.

External collaborators (the PIL image codec and the HTTP transport) are
modelled as explicit parameters: the embedded functions receive a codec or a
transport oracle and are proved correct for every behaviour of that oracle,
or refuted on a concrete, realistic instance.  Python floats are embedded as
rationals; machine strings are Lean `String`s.
-/

-- ===========================================================================
-- Configuration constants, src/app.py lines 89-92
-- ===========================================================================

/-- Upload size ceiling, `MAX_FILE_SIZE = 10 * 1024 * 1024` (line 90). -/
def MAX_FILE_SIZE : Nat := 10 * 1024 * 1024

/-- Request timeout in seconds, `REQUEST_TIMEOUT = 30` (line 92). -/
def REQUEST_TIMEOUT : Nat := 30

-- ===========================================================================
-- Image validator, src/app.py lines 98-109
-- ===========================================================================

/-- The uploaded file object handed to `validate_image`: a byte buffer with a
declared `size` attribute and a current stream read position (`tell()`). -/
structure UploadedFile where
  bytes : List Nat
  size : Nat
  pos : Nat
deriving DecidableEq, Repr

/-- Model of the external PIL codec used by `Image.open(...)` followed by
`image.verify()` (lines 104-105).  `verifyResult f = none` means the combined
open-and-verify call succeeds; `verifyResult f = some e` means it raises an
exception whose `str` is `e`.  `posAfterVerify f` is the stream position the
attempt leaves behind (PIL reads at least a 16-byte identification prefix and
does not seek back before raising). -/
structure ImageCodec where
  verifyResult : UploadedFile → Option String
  posAfterVerify : UploadedFile → Nat

/-- Shallow embedding of `validate_image` (src/app.py lines 98-109).  Returns
the `(is_valid, error_message)` pair together with the file state after the
call.  The size guard (lines 100-101) fires before any decode; on a
successful verify the code executes `uploaded_file.seek(0)` (line 106); in
the `except` branch (lines 108-109) no seek is performed, so the position is
whatever the failed decode attempt left. -/
def validate_image (codec : ImageCodec) (uploaded_file : UploadedFile) :
    (Bool × Option String) × UploadedFile :=
  if uploaded_file.size > MAX_FILE_SIZE then
    ((false, some "File size exceeds 10MB limit."), uploaded_file)
  else
    match codec.verifyResult uploaded_file with
    | none => ((true, none), { uploaded_file with pos := 0 })
    | some e =>
        ((false, some ("Invalid image file: " ++ e)),
         { uploaded_file with pos := codec.posAfterVerify uploaded_file })

/-- Concrete codec instance modelling PIL on a buffer that matches no known
image signature: `Image.open` reads the 16-byte identification prefix (or the
whole buffer if shorter), finds no accepting format, and raises
`UnidentifiedImageError` without restoring the read position. -/
def unidentifiedCodec : ImageCodec where
  verifyResult _ := some "cannot identify image file"
  posAfterVerify f := min 16 f.bytes.length

/-- A three-byte buffer that is not a decodable image, read position 0. -/
def garbageFile : UploadedFile := ⟨[0, 1, 2], 3, 0⟩

/-- A declared size one byte over the 10 MiB ceiling. -/
def hugeFile : UploadedFile := ⟨[], 10 * 1024 * 1024 + 1, 0⟩

-- ===========================================================================
-- Image normalizer, src/app.py lines 111-118
-- ===========================================================================

/-- PIL color modes relevant to the pipeline. -/
inductive PILMode
  | one
  | L
  | LA
  | P
  | PA
  | RGB
  | RGBA
  | RGBX
  | CMYK
  | YCbCr
deriving DecidableEq, Repr

/-- The PIL mode string, as interpolated into error messages. -/
def PILMode.name : PILMode → String
  | .one => "1"
  | .L => "L"
  | .LA => "LA"
  | .P => "P"
  | .PA => "PA"
  | .RGB => "RGB"
  | .RGBA => "RGBA"
  | .RGBX => "RGBX"
  | .CMYK => "CMYK"
  | .YCbCr => "YCbCr"

/-- Modes carrying an explicit alpha channel. -/
def PILMode.hasAlphaChannel : PILMode → Bool
  | .LA | .PA | .RGBA => true
  | _ => false

/-- Modes accepted by the PIL JPEG encoder (the keys of
`JpegImagePlugin.RAWMODE`); saving any other mode as JPEG raises
`OSError("cannot write mode <mode> as JPEG")`. -/
def jpegWritable : PILMode → Bool
  | .one | .L | .RGB | .RGBX | .CMYK | .YCbCr => true
  | _ => false

/-- A decoded PIL image: dimensions, color mode, and whether the image info
carries palette transparency (relevant for mode P). -/
structure PILImage where
  width : Nat
  height : Nat
  mode : PILMode
  transparency : Bool
deriving DecidableEq, Repr

/-- An image whose color mode includes an alpha channel, including a palette
image with transparency info. -/
def PILImage.hasAlpha (im : PILImage) : Bool :=
  im.mode.hasAlphaChannel || (im.mode == .P && im.transparency)

/-- `image.convert(mode)`: same dimensions, new mode, transparency resolved
(alpha dropped, not blended). -/
def PILImage.convert (im : PILImage) (m : PILMode) : PILImage :=
  { im with mode := m, transparency := false }

/-- The JPEG byte payload produced by `image.save(img_bytes, format='JPEG',
quality=95)`: it records the dimensions and the mode it was encoded from. -/
structure JpegBytes where
  width : Nat
  height : Nat
  srcMode : PILMode
deriving DecidableEq, Repr

/-- Model of the PIL JPEG encoder: succeeds exactly on the RAWMODE modes,
otherwise raises `OSError`. -/
def jpegSave (im : PILImage) : Except String JpegBytes :=
  if jpegWritable im.mode then .ok ⟨im.width, im.height, im.mode⟩
  else .error ("cannot write mode " ++ im.mode.name ++ " as JPEG")

/-- Shallow embedding of `preprocess_image` (src/app.py lines 111-118): only
mode RGBA is converted to RGB (lines 115-116) before the JPEG save (line
117); every other mode is passed to the encoder unchanged. -/
def preprocess_image (image : PILImage) : Except String JpegBytes :=
  let image := if image.mode == .RGBA then image.convert .RGB else image
  jpegSave image

/-- The mode a JPEG payload decodes to when reopened: grayscale sources load
as L, CMYK stays CMYK, all other writable sources load as RGB. -/
def jpegLoadMode : PILMode → PILMode
  | .one => .L
  | .L => .L
  | .CMYK => .CMYK
  | _ => .RGB

/-- Decoding a JPEG payload yields an image of the recorded dimensions in the
load mode; JPEG has no alpha channel or transparency. -/
def jpegDecode (b : JpegBytes) : PILImage :=
  ⟨b.width, b.height, jpegLoadMode b.srcMode, false⟩

-- ===========================================================================
-- Inference client, src/app.py lines 120-147
-- ===========================================================================

/-- Values produced by Python `json` decoding of a response body. -/
inductive Json
  | null
  | bool (b : Bool)
  | num (v : Rat)
  | str (s : String)
  | arr (elems : List Json)
  | obj (fields : List (String × Json))

/-- Python `str()` of a JSON-decoded value, as interpolated by the f-string
at src/app.py line 137.  Strings render as themselves and the atoms as their
Python spellings; numbers and containers are given a canonical rendering by
this model (the served error contract only ever puts a string under
`message`, and no claim depends on the rendering of the other shapes). -/
def pyStr : Json → String
  | .null => "None"
  | .bool true => "True"
  | .bool false => "False"
  | .num v => if v.den = 1 then toString v.num else toString v.num ++ "/" ++ toString v.den
  | .str s => s
  | .arr _ => "<list>"
  | .obj _ => "<dict>"

/-- An HTTP response as observed through the `requests` API: the status code,
the raw body text, and the result of `response.json()` — `some v` when the
body parses, `none` when the call raises, with `jsonErr` the `str` of that
exception. -/
structure HttpResponse where
  status_code : Nat
  text : String
  json : Option Json
  jsonErr : String

/-- Outcome of the `requests.post` call at src/app.py lines 123-128: either a
response arrives, or the transport raises `ConnectionError`, `Timeout`, or
some other exception with description `desc`. -/
inductive TransportResult
  | response (r : HttpResponse)
  | connectionError
  | timeout
  | otherError (desc : String)

/-- The detail appended after the status code for a non-200 response
(src/app.py lines 135-139): `error_detail.get('message', response.text)`
when the body parses as a JSON object — the `message` value if the key is
present, otherwise the full raw text as the `.get` default — and
`response.text[:200]` when `response.json()` raises or returns a non-dict
(on which `.get` raises `AttributeError`, caught by the bare `except`). -/
def serverErrorDetail (r : HttpResponse) : String :=
  match r.json with
  | some (.obj fields) =>
      match fields.lookup "message" with
      | some v => pyStr v
      | none => r.text
  | some _ => r.text.take 200
  | none => r.text.take 200

/-- Shallow embedding of `get_predictions` (src/app.py lines 120-147).  The
transport oracle stands for `requests.post` applied to the image bytes.  On
status 200 the parsed body is returned as-is (lines 130-132); if
`response.json()` raises there, the exception reaches the outer handler at
line 146 (`Unexpected error: ...`).  Non-200 responses produce the server
error message of lines 133-140.  Transport exceptions map to the three
handlers at lines 142-147. -/
def get_predictions (transport : List Nat → TransportResult)
    (image_bytes : List Nat) : Bool × Option Json × Option String :=
  match transport image_bytes with
  | .response r =>
      if r.status_code = 200 then
        match r.json with
        | some predictions => (true, some predictions, none)
        | none => (false, none, some ("Unexpected error: " ++ r.jsonErr))
      else
        (false, none,
         some ("Server returned status " ++ Nat.repr r.status_code ++ ": " ++
           serverErrorDetail r))
  | .connectionError =>
      (false, none,
       some "Cannot connect to TorchServe. Please ensure Docker container is running on port 8080.")
  | .timeout =>
      (false, none,
       some ("Request timed out after " ++ Nat.repr REQUEST_TIMEOUT ++ " seconds."))
  | .otherError desc => (false, none, some ("Unexpected error: " ++ desc))

/-- A 300-character string of the letter a, the payload of a long error
body. -/
def longDetail : String := String.mk (List.replicate 300 'a')

/-- A body that parses as a JSON object with no `message` field and whose
raw text is far longer than 200 characters. -/
def noMessageBody : String := "\x7b\"detail\": \"" ++ longDetail ++ "\"\x7d"

/-- An HTTP 500 response carrying `noMessageBody`. -/
def noMessageResponse : HttpResponse :=
  ⟨500, noMessageBody, some (.obj [("detail", .str longDetail)]), ""⟩

/-- An HTTP 500 response with JSON body containing a `message` field. -/
def oomResponse : HttpResponse :=
  ⟨500, "\x7b\"message\": \"OOM\"\x7d", some (.obj [("message", .str "OOM")]), ""⟩

/-- An HTTP 200 response whose body is not valid JSON, so `response.json()`
raises a decode error. -/
def notJsonResponse : HttpResponse :=
  ⟨200, "not json", none, "Expecting value: line 1 column 1 (char 0)"⟩

/-- An HTTP 200 response whose body is valid JSON but a list, not an object
of numeric confidences. -/
def listBodyResponse : HttpResponse :=
  ⟨200, "[1, 2]", some (.arr [.num 1, .num 2]), ""⟩

/-- An HTTP 200 response whose body is the JSON literal `null`:
`response.json()` succeeds and returns the Python `None` object. -/
def nullBodyResponse : HttpResponse := ⟨200, "null", some .null, ""⟩

/-- The Python `is None` test on the predictions slot of the returned
triple.  The embedding uses `none` for the literal `None` written in the
failure returns of `get_predictions`, and `some v` for the parsed JSON value
`v` returned on status 200; but Python's json module decodes a `null` body
to the very same `None` object, so the slot is observably `None` in Python
when it is either `none` or `some Json.null`. -/
def pyIsNone : Option Json → Bool
  | none => true
  | some .null => true
  | some _ => false

-- ===========================================================================
-- Percentage formatting, src/app.py lines 149-151 and 355/369
-- ===========================================================================

/-- Rounding of a rational to an integer as performed by Python fixed-point
float formatting: round half to even, written via the floor
`q.num.fdiv q.den` and the fractional remainder. -/
def pyRound (q : Rat) : Int :=
  if q - (q.num.fdiv q.den : Int) < 1/2 then q.num.fdiv q.den
  else if (1 : Rat)/2 < q - (q.num.fdiv q.den : Int) then q.num.fdiv q.den + 1
  else if q.num.fdiv q.den % 2 = 0 then q.num.fdiv q.den
  else q.num.fdiv q.den + 1

/-- The last `k` decimal digits of `n`, zero-padded to exactly `k`
characters. -/
def digitsFixed : Nat → Nat → String
  | 0, _ => ""
  | k + 1, n => digitsFixed k (n / 10) ++ String.singleton (Nat.digitChar (n % 10))

/-- Sign and integer part of `q` rendered at `prec` decimal places. -/
def formatFixedInt (prec : Nat) (q : Rat) : String :=
  (if pyRound (q * (10 : Rat) ^ prec) < 0 then "-" else "") ++
    Nat.repr ((pyRound (q * (10 : Rat) ^ prec)).natAbs / 10 ^ prec)

/-- Fractional digits of `q` rendered at `prec` decimal places. -/
def formatFixedFrac (prec : Nat) (q : Rat) : String :=
  digitsFixed prec ((pyRound (q * (10 : Rat) ^ prec)).natAbs % 10 ^ prec)

/-- Python `f"{q:.<prec>f}"`: the value rounded half-to-even at `prec`
decimal places and rendered with exactly `prec` digits after the point. -/
def formatFixed (prec : Nat) (q : Rat) : String :=
  formatFixedInt prec q ++ "." ++ formatFixedFrac prec q

/-- Shallow embedding of `format_confidence` (src/app.py lines 149-151):
`f"{value * 100:.2f}%"`. -/
def format_confidence (value : Rat) : String :=
  formatFixed 2 (value * 100) ++ "%"

/-- The per-row percentage string of src/app.py lines 355 and 369:
`score_pct = confidence * 100` rendered as `f"{score_pct:.1f}%"`. -/
def rowPercentString (confidence : Rat) : String :=
  formatFixed 1 (confidence * 100) ++ "%"

-- ===========================================================================
-- Result ranking, src/app.py lines 330-331, 345, 354
-- ===========================================================================

/-- `best_label = list(predictions.keys())[0]` (line 330), as an optional
value since indexing an empty dict raises.  The mapping is the parsed JSON
object in its received iteration order. -/
def best_label (predictions : List (String × Rat)) : Option String :=
  (predictions.map Prod.fst).head?

/-- `best_score = list(predictions.values())[0]` (line 331). -/
def best_score (predictions : List (String × Rat)) : Option Rat :=
  (predictions.map Prod.snd).head?

/-- The confidence bucket of the top prediction, the `delta` expression at
src/app.py line 345:
`"High" if best_score > 0.7 else "Medium" if best_score > 0.4 else "Low"`. -/
def delta_bucket (best_score : Rat) : String :=
  if best_score > 0.7 then "High"
  else if best_score > 0.4 then "Medium"
  else "Low"

/-- The ranked display sequence of src/app.py line 354:
`enumerate(predictions.items(), 1)` — each entry paired with its 1-based
rank, in received order, with no re-sorting. -/
def rankedPredictions (predictions : List (String × Rat)) :
    List (Nat × String × Rat) :=
  predictions.enumFrom 1

/-- The worked example mapping from the spec:
`{"dog": 0.91, "cat": 0.05, "fox": 0.04}` in received order. -/
def dogCatFox : List (String × Rat) :=
  [("dog", 91/100), ("cat", 5/100), ("fox", 4/100)]

-- ===========================================================================
-- Session state, src/app.py lines 214-217 and 300, 315-321
-- ===========================================================================

/-- The session state relevant to result display: the stored predictions and
the stored analysis duration (lines 214-217). -/
structure SessionState where
  predictions : Option Json
  analysis_time : Option Rat

/-- The state update performed by one press of the Analyze button
(src/app.py lines 300 and 315-321): on success the predictions and duration
are stored; on failure the stored predictions are set to `None`. -/
def run_analysis (s : SessionState) (transport : List Nat → TransportResult)
    (image_bytes : List Nat) (analysis_time : Rat) : SessionState :=
  match get_predictions transport image_bytes with
  | (true, predictions, _) =>
      { s with predictions := predictions, analysis_time := some analysis_time }
  | (false, _, _) => { s with predictions := none }

/-- A session holding a previously displayed successful result. -/
def staleSession : SessionState :=
  ⟨some (.obj [("dog", .num (91/100))]), some 1⟩

-- ===========================================================================
-- Helper lemmas
-- ===========================================================================

/-- Projecting the entries out of an enumeration returns the original list. -/
theorem enumFrom_map_snd {α : Type _} (n : Nat) (l : List α) :
    (l.enumFrom n).map Prod.snd = l := by
  induction l generalizing n with
  | nil => rfl
  | cons a t ih => simp [List.enumFrom, ih]

/-- The indices of an enumeration starting at `n` are `n, n+1, ...`. -/
theorem enumFrom_map_fst {α : Type _} (n : Nat) (l : List α) :
    (l.enumFrom n).map Prod.fst = List.range' n l.length := by
  induction l generalizing n with
  | nil => rfl
  | cons a t ih => simp [List.enumFrom, List.range', ih]

/-- The fixed-width digit rendering always has exactly `k` characters. -/
theorem digitsFixed_length (k : Nat) : ∀ n : Nat, (digitsFixed k n).length = k := by
  induction k with
  | zero => intro n; rfl
  | succ k ih =>
      intro n
      show (digitsFixed k (n / 10) ++ String.singleton (Nat.digitChar (n % 10))).length = k + 1
      rw [String.length_append, ih]
      rfl

/-- Rounding an integer-valued rational returns that integer. -/
theorem pyRound_intCast (n : Int) : pyRound ((n : Rat)) = n := by
  have hf : ((n : Rat).num.fdiv ((n : Rat).den : Int)) = n := by
    rw [Rat.num_intCast, Rat.den_intCast, Nat.cast_one, Int.fdiv_one]
  unfold pyRound
  rw [hf, sub_self, if_pos (show (0 : Rat) < 1/2 by norm_num)]

-- ===========================================================================
-- Claim theorems
-- ===========================================================================

/-- C3 (confirmed): for every upload whose declared size strictly exceeds the
10 MiB ceiling, `validate_image` returns `(False, "File size exceeds 10MB
limit.")` and leaves the file untouched, for every codec — no decode is
attempted and content validity is irrelevant. -/
theorem validate_size_limit (codec : ImageCodec) (uploaded_file : UploadedFile)
    (h : uploaded_file.size > MAX_FILE_SIZE) :
    validate_image codec uploaded_file =
      ((false, some "File size exceeds 10MB limit."), uploaded_file) := by
  unfold validate_image
  rw [if_pos h]

/-- C3 witness: a file one byte over the ceiling is rejected with the size
reason, for a codec that would also have rejected the content. -/
theorem validate_size_limit_witness :
    hugeFile.size > MAX_FILE_SIZE ∧
    validate_image unidentifiedCodec hugeFile =
      ((false, some "File size exceeds 10MB limit."), hugeFile) :=
  ⟨by decide, validate_size_limit unidentifiedCodec hugeFile (by decide)⟩

/-- C1 counterexample: on a concrete non-decodable three-byte buffer at read
position 0, `validate_image` does return `Invalid` with the decode-error
reason, but the read position afterwards is 3 — the position the failed
decode attempt left — not the original position 0: `seek(0)` runs only on
the success path (src/app.py line 106), so the claim that the position is
unchanged (reset) after the failed verify-only decode is false. -/
theorem validate_reset_counterexample :
    garbageFile.pos = 0 ∧
    (validate_image unidentifiedCodec garbageFile).1.1 = false ∧
    (validate_image unidentifiedCodec garbageFile).1.2 =
      some "Invalid image file: cannot identify image file" ∧
    (validate_image unidentifiedCodec garbageFile).2.pos = 3 := by
  decide

/-- C1 (corrected): for every byte buffer within the size ceiling that is
not decodable as an image, `validate_image` returns `Invalid` with reason
`"Invalid image file: <decoder error>"`, and the read position is left
wherever the failed verify-only decode attempt left it — it is not reset,
since `seek(0)` runs only on the success path. -/
theorem validate_undecodable (codec : ImageCodec) (uploaded_file : UploadedFile)
    (hsize : ¬ uploaded_file.size > MAX_FILE_SIZE) (e : String)
    (he : codec.verifyResult uploaded_file = some e) :
    validate_image codec uploaded_file =
      ((false, some ("Invalid image file: " ++ e)),
       { uploaded_file with pos := codec.posAfterVerify uploaded_file }) := by
  unfold validate_image
  rw [if_neg hsize, he]

/-- C1 witness: the amended statement evaluated on the concrete garbage
buffer and the concrete PIL-on-unidentified-bytes codec. -/
theorem validate_undecodable_witness :
    (¬ garbageFile.size > MAX_FILE_SIZE) ∧
    unidentifiedCodec.verifyResult garbageFile = some "cannot identify image file" ∧
    validate_image unidentifiedCodec garbageFile =
      ((false, some "Invalid image file: cannot identify image file"),
       ⟨[0, 1, 2], 3, 3⟩) :=
  ⟨by decide, rfl,
    (validate_undecodable unidentifiedCodec garbageFile (by decide) _ rfl).trans
      (by decide)⟩

/-- C2 counterexample: a 4x3 image in mode LA — a valid image whose color
mode includes an alpha channel — is not converted by `preprocess_image`
(only mode RGBA is, src/app.py line 115), so the JPEG encoder raises
`cannot write mode LA as JPEG` and no decodable bytes are produced,
contradicting the claim that every alpha-mode image normalizes to decodable
non-alpha bytes. -/
theorem preprocess_alpha_counterexample :
    (PILImage.mk 4 3 PILMode.LA false).hasAlpha = true ∧
    preprocess_image ⟨4, 3, PILMode.LA, false⟩ =
      Except.error "cannot write mode LA as JPEG" :=
  ⟨rfl, rfl⟩

/-- C2 (corrected): for every valid image of mode RGBA, `preprocess_image`
converts to RGB and returns encoded bytes that decode as a non-alpha RGB
image of identical width and height; other alpha modes are not converted and
make the JPEG encoder raise instead. -/
theorem preprocess_rgba (image : PILImage) (h : image.mode = PILMode.RGBA) :
    ∃ b, preprocess_image image = Except.ok b ∧
      (jpegDecode b).width = image.width ∧
      (jpegDecode b).height = image.height ∧
      (jpegDecode b).mode = PILMode.RGB ∧
      (jpegDecode b).hasAlpha = false := by
  obtain ⟨w, ht, m, tr⟩ := image
  dsimp at h
  subst h
  exact ⟨⟨w, ht, .RGB⟩, rfl, rfl, rfl, rfl, rfl⟩

/-- C2 witness: the amended statement evaluated on a concrete 4x3 RGBA
image. -/
theorem preprocess_rgba_witness :
    (PILImage.mk 4 3 PILMode.RGBA true).mode = PILMode.RGBA ∧
    ∃ b, preprocess_image ⟨4, 3, PILMode.RGBA, true⟩ = Except.ok b ∧
      (jpegDecode b).width = (PILImage.mk 4 3 PILMode.RGBA true).width ∧
      (jpegDecode b).height = (PILImage.mk 4 3 PILMode.RGBA true).height ∧
      (jpegDecode b).mode = PILMode.RGB ∧
      (jpegDecode b).hasAlpha = false :=
  ⟨rfl, preprocess_rgba ⟨4, 3, PILMode.RGBA, true⟩ rfl⟩

/-- C4 counterexample: a concrete HTTP 500 response whose 314-character body
parses as a JSON object without a `message` field.  `get_predictions`
appends the full raw body after the status code — the `.get` default is
`response.text`, not `response.text[:200]` — so the produced message is not
the status code plus the first 200 characters of the body, refuting the
claim's else-branch. -/
theorem server_error_detail_counterexample :
    (get_predictions (fun _ => .response noMessageResponse) []).2.2 =
      some ("Server returned status 500: " ++ noMessageBody) ∧
    noMessageBody.length = 314 ∧
    (get_predictions (fun _ => .response noMessageResponse) []).2.2 ≠
      some ("Server returned status 500: " ++ noMessageBody.take 200) := by
  have h1 : ("\x7b\"detail\": \"" : String).length = 12 := rfl
  have h2 : ("\"\x7d" : String).length = 2 := rfl
  have hld : longDetail.length = 300 := rfl
  have hbody : noMessageBody.length = 314 := by
    rw [show noMessageBody = "\x7b\"detail\": \"" ++ longDetail ++ "\"\x7d" from rfl,
      String.length_append, String.length_append, h1, h2, hld]
  have hfull : get_predictions (fun _ => .response noMessageResponse) [] =
      (false, none, some ("Server returned status 500: " ++ noMessageBody)) := rfl
  have hdata : noMessageBody.data.length = 314 := hbody
  have htake : (noMessageBody.take 200).length = 200 := by
    rw [String.take_eq, String.mk_length, List.length_take, hdata]
    decide
  have hA : ("Server returned status 500: " ++ noMessageBody).length = 342 := by
    rw [String.length_append, hbody,
      show ("Server returned status 500: " : String).length = 28 from rfl]
  have hB : ("Server returned status 500: " ++ noMessageBody.take 200).length = 228 := by
    rw [String.length_append, htake,
      show ("Server returned status 500: " : String).length = 28 from rfl]
  refine ⟨congrArg (fun x => x.2.2) hfull, hbody, ?_⟩
  intro h
  have heq : ("Server returned status 500: " ++ noMessageBody) =
      ("Server returned status 500: " ++ noMessageBody.take 200) :=
    Option.some.inj ((congrArg (fun x => x.2.2) hfull).symm.trans h)
  have hlen := congrArg String.length heq
  rw [hA, hB] at hlen
  exact absurd hlen (by decide)

/-- C4 (corrected): for every non-200 response, `get_predictions` returns a
failure whose message contains the status code followed by: the `message`
field's value when the body parses as a JSON object containing one, the
entire raw body when it parses as a JSON object without one, and the first
200 characters of the raw body when the body is not a JSON object. -/
theorem server_error_message (transport : List Nat → TransportResult)
    (image_bytes : List Nat) (r : HttpResponse)
    (hr : transport image_bytes = .response r) (hs : r.status_code ≠ 200) :
    get_predictions transport image_bytes =
      (false, none,
       some ("Server returned status " ++ Nat.repr r.status_code ++ ": " ++
         serverErrorDetail r)) := by
  unfold get_predictions
  rw [hr]
  simp [hs]

/-- C4 witness: the amended statement evaluated on the spec's worked
example, an HTTP 500 response with JSON body containing `message = OOM`:
the resulting message contains both `500` and `OOM`. -/
theorem server_error_message_witness :
    ((fun _ => TransportResult.response oomResponse) ([] : List Nat) =
      TransportResult.response oomResponse) ∧
    oomResponse.status_code ≠ 200 ∧
    get_predictions (fun _ => .response oomResponse) [] =
      (false, none, some "Server returned status 500: OOM") :=
  ⟨rfl, by decide,
    (server_error_message (fun _ => .response oomResponse) [] oomResponse rfl
      (by decide)).trans rfl⟩

/-- C7 counterexample: a concrete HTTP 200 response whose body `[1, 2]` is
valid JSON but not an object mapping labels to confidences.
`get_predictions` returns it as a success with the malformed value — it does
not produce a ParseError or UnexpectedError failure — refuting the claim. -/
theorem status200_malformed_counterexample :
    get_predictions (fun _ => .response listBodyResponse) [] =
      (true, some (.arr [.num 1, .num 2]), none) :=
  rfl

/-- C7 (corrected): for every HTTP 200 response, if the body is not valid
JSON the decode exception is caught by the outer handler and
`get_predictions` returns an `Unexpected error` failure without raising; but
if the body parses as JSON of any shape, the parsed value — even one that is
not an object of numeric confidences — is returned as a success with no
validation. -/
theorem status200_parse (transport : List Nat → TransportResult)
    (image_bytes : List Nat) (r : HttpResponse)
    (hr : transport image_bytes = .response r) (hs : r.status_code = 200) :
    (r.json = none →
      get_predictions transport image_bytes =
        (false, none, some ("Unexpected error: " ++ r.jsonErr))) ∧
    (∀ v, r.json = some v →
      get_predictions transport image_bytes = (true, some v, none)) := by
  constructor
  · intro hj
    unfold get_predictions
    rw [hr]
    simp [hs, hj]
  · intro v hj
    unfold get_predictions
    rw [hr]
    simp [hs, hj]

/-- C7 witness: the amended statement evaluated on a concrete 200 response
whose body is not valid JSON: the outcome is an `Unexpected error` failure
carrying the decode exception text. -/
theorem status200_parse_witness :
    ((fun _ => TransportResult.response notJsonResponse) ([] : List Nat) =
      TransportResult.response notJsonResponse) ∧
    notJsonResponse.status_code = 200 ∧
    notJsonResponse.json = none ∧
    get_predictions (fun _ => .response notJsonResponse) [] =
      (false, none,
       some "Unexpected error: Expecting value: line 1 column 1 (char 0)") :=
  ⟨rfl, rfl, rfl,
    ((status200_parse (fun _ => .response notJsonResponse) [] notJsonResponse
      rfl rfl).1 rfl).trans rfl⟩

/-- C10 counterexample: a concrete HTTP 200 response whose body is the JSON
literal `null`.  `response.json()` returns Python `None` and the code
returns `(True, None, None)`: the success flag is true while the predictions
value the caller observes is None (`pyIsNone` holds of the slot), refuting
the claimed biconditional between the success flag and a non-None
predictions value. -/
theorem get_predictions_null_counterexample :
    get_predictions (fun _ => .response nullBodyResponse) [] =
      (true, some Json.null, none) ∧
    pyIsNone (get_predictions (fun _ => .response nullBodyResponse) []).2.1 =
      true ∧
    (get_predictions (fun _ => .response nullBodyResponse) []).1 = true :=
  ⟨rfl, rfl, rfl⟩

/-- C10 (corrected): `get_predictions` is total over every transport
behaviour — every exception branch is mapped to a returned triple — and the
triple is consistent up to one corner: the success flag is true exactly when
the error message is None, and a failure always carries predictions None;
but the success flag being true with an observably-None predictions value
does occur, exactly when a 200 body parses as JSON `null`. -/
theorem get_predictions_total_consistent (transport : List Nat → TransportResult)
    (image_bytes : List Nat) :
    ((get_predictions transport image_bytes).1 = true ↔
      (get_predictions transport image_bytes).2.2 = none) ∧
    ((get_predictions transport image_bytes).1 = false →
      (get_predictions transport image_bytes).2.1 = none) ∧
    ((get_predictions transport image_bytes).1 = true →
      pyIsNone (get_predictions transport image_bytes).2.1 = true →
      ∃ r, transport image_bytes = TransportResult.response r ∧
        r.status_code = 200 ∧ r.json = some Json.null) := by
  rcases hr : transport image_bytes with r | _ | _ | d
  · by_cases hs : r.status_code = 200
    · rcases hj : r.json with _ | v
      · simp [get_predictions, hr, hs, hj]
      · refine ⟨by simp [get_predictions, hr, hs, hj],
          by simp [get_predictions, hr, hs, hj], ?_⟩
        intro _ hnull
        have h2 : (get_predictions transport image_bytes).2.1 = some v := by
          simp [get_predictions, hr, hs, hj]
        rw [h2] at hnull
        refine ⟨r, rfl, hs, ?_⟩
        rw [hj]
        cases v <;> simp_all [pyIsNone]
    · simp [get_predictions, hr, hs]
  · simp [get_predictions, hr]
  · simp [get_predictions, hr]
  · simp [get_predictions, hr]

/-- C10 witness: the amended statement evaluated at the 200-with-null-body
transport: the success flag is true, the predictions slot is observably
None, and the amended theorem pins this on exactly that response shape. -/
theorem get_predictions_total_consistent_witness :
    (get_predictions (fun _ => TransportResult.response nullBodyResponse)
      []).1 = true ∧
    pyIsNone (get_predictions (fun _ => TransportResult.response
      nullBodyResponse) []).2.1 = true ∧
    ∃ r, (fun _ => TransportResult.response nullBodyResponse)
        ([] : List Nat) = TransportResult.response r ∧
      r.status_code = 200 ∧ r.json = some Json.null :=
  ⟨rfl, rfl,
    (get_predictions_total_consistent
      (fun _ => .response nullBodyResponse) []).2.2 rfl rfl⟩

/-- C5 (confirmed): the bucket of the top prediction is High exactly when
the confidence exceeds 0.7, Medium exactly when it exceeds 0.4 but not 0.7,
and Low exactly when it is at most 0.4; both boundaries are exclusive
upward, so confidence 0.4 is Low and confidence 0.7 is Medium. -/
theorem delta_bucket_spec (c : Rat) :
    (delta_bucket c = "High" ↔ 0.7 < c) ∧
    (delta_bucket c = "Medium" ↔ 0.4 < c ∧ c ≤ 0.7) ∧
    (delta_bucket c = "Low" ↔ c ≤ 0.4) := by
  by_cases h1 : c > 0.7
  · have hd : delta_bucket c = "High" := by unfold delta_bucket; rw [if_pos h1]
    refine ⟨⟨fun _ => h1, fun _ => hd⟩,
      ⟨fun hm => ?_, fun hmc => absurd h1 (not_lt.mpr hmc.2)⟩,
      ⟨fun hl => ?_, fun hlc => absurd h1 (not_lt.mpr (hlc.trans (by norm_num)))⟩⟩
    · rw [hd] at hm
      exact absurd hm (by decide)
    · rw [hd] at hl
      exact absurd hl (by decide)
  · by_cases h2 : c > 0.4
    · have hd : delta_bucket c = "Medium" := by
        unfold delta_bucket
        rw [if_neg h1, if_pos h2]
      refine ⟨⟨fun hh => ?_, fun hc => absurd hc h1⟩,
        ⟨fun _ => ⟨h2, not_lt.mp h1⟩, fun _ => hd⟩,
        ⟨fun hl => ?_, fun hlc => absurd h2 (not_lt.mpr hlc)⟩⟩
      · rw [hd] at hh
        exact absurd hh (by decide)
      · rw [hd] at hl
        exact absurd hl (by decide)
    · have hd : delta_bucket c = "Low" := by
        unfold delta_bucket
        rw [if_neg h1, if_neg h2]
      refine ⟨⟨fun hh => ?_, fun hc => absurd hc h1⟩,
        ⟨fun hm => ?_, fun hmc => absurd hmc.1 h2⟩,
        ⟨fun _ => not_lt.mp h2, fun _ => hd⟩⟩
      · rw [hd] at hh
        exact absurd hh (by decide)
      · rw [hd] at hm
        exact absurd hm (by decide)

/-- C6 (confirmed): for every non-empty prediction mapping, the top summary
`(best_label, best_score)` is the mapping's first entry in received order,
and the ranked display sequence is exactly the received entries in order,
paired with the 1-based ranks 1, 2, ..., n — nothing is re-sorted. -/
theorem ranking_preserves_order (predictions : List (String × Rat))
    (h : predictions ≠ []) :
    best_label predictions = some (predictions.head h).1 ∧
    best_score predictions = some (predictions.head h).2 ∧
    (rankedPredictions predictions).map Prod.snd = predictions ∧
    (rankedPredictions predictions).map Prod.fst =
      List.range' 1 predictions.length := by
  match predictions with
  | [] => exact absurd rfl h
  | (l, c) :: t =>
      refine ⟨rfl, rfl, ?_, ?_⟩
      · exact enumFrom_map_snd 1 ((l, c) :: t)
      · exact enumFrom_map_fst 1 ((l, c) :: t)

/-- C6 witness: the spec's worked example mapping dog 0.91, cat 0.05,
fox 0.04 received in that order — top summary is dog at 0.91 and the ranked
sequence is dog, cat, fox at ranks 1, 2, 3. -/
theorem ranking_preserves_order_witness :
    dogCatFox ≠ [] ∧
    best_label dogCatFox = some "dog" ∧
    best_score dogCatFox = some (91/100) ∧
    (rankedPredictions dogCatFox).map Prod.snd = dogCatFox ∧
    (rankedPredictions dogCatFox).map Prod.fst = [1, 2, 3] := by
  have h : dogCatFox ≠ [] := by decide
  obtain ⟨h1, h2, h3, h4⟩ := ranking_preserves_order dogCatFox h
  exact ⟨h, h1.trans rfl, h2.trans rfl, h3, h4.trans rfl⟩

/-- C8 (confirmed): the headline percentage string is the confidence times
100 rendered with exactly two digits after the decimal point followed by a
percent sign, and the per-row string uses exactly one digit; in particular
confidence 0.7 renders as the headline `70.00%` and the row `70.0%`. -/
theorem percent_formatting :
    format_confidence (7/10) = "70.00%" ∧
    rowPercentString (7/10) = "70.0%" ∧
    (∀ c : Rat, ∃ ip fp, format_confidence c = ip ++ "." ++ fp ++ "%" ∧
      fp.length = 2) ∧
    (∀ c : Rat, ∃ ip fp, rowPercentString c = ip ++ "." ++ fp ++ "%" ∧
      fp.length = 1) := by
  have e2 : (7/10 : Rat) * 100 * (10 : Rat) ^ (2 : Nat) = ((7000 : Int) : Rat) := by
    push_cast
    norm_num
  have e1 : (7/10 : Rat) * 100 * (10 : Rat) ^ (1 : Nat) = ((700 : Int) : Rat) := by
    push_cast
    norm_num
  refine ⟨?_, ?_, fun c => ?_, fun c => ?_⟩
  · unfold format_confidence formatFixed formatFixedInt formatFixedFrac
    rw [e2, pyRound_intCast]
    decide
  · unfold rowPercentString formatFixed formatFixedInt formatFixedFrac
    rw [e1, pyRound_intCast]
    decide
  · exact ⟨formatFixedInt 2 (c * 100), formatFixedFrac 2 (c * 100), rfl,
      digitsFixed_length 2 _⟩
  · exact ⟨formatFixedInt 1 (c * 100), formatFixedFrac 1 (c * 100), rfl,
      digitsFixed_length 1 _⟩

/-- C9 (confirmed): after a failed analysis attempt the session's stored
predictions are cleared to None — a previously displayed success is never
left in place next to a new failure — and the stored predictions are
non-None only when the analysis that just completed succeeded. -/
theorem failure_clears_predictions (s : SessionState)
    (transport : List Nat → TransportResult) (image_bytes : List Nat)
    (t : Rat) :
    ((get_predictions transport image_bytes).1 = false →
      (run_analysis s transport image_bytes t).predictions = none) ∧
    (∀ p, (run_analysis s transport image_bytes t).predictions = some p →
      (get_predictions transport image_bytes).1 = true) := by
  rcases hg : get_predictions transport image_bytes with ⟨b, p, e⟩
  cases b <;> simp [run_analysis, hg]

/-- C9 witness: a session holding a previous successful result, hit by a
connection-refused analysis attempt: the stored predictions come out
cleared. -/
theorem failure_clears_predictions_witness :
    (get_predictions (fun _ => TransportResult.connectionError) []).1 = false ∧
    (run_analysis staleSession (fun _ => TransportResult.connectionError) []
      2).predictions = none :=
  ⟨rfl,
    (failure_clears_predictions staleSession (fun _ => .connectionError) []
      2).1 rfl⟩
